import Mathlib

/-!
Verification development for the MiradorStack Grafana datasource plugin
(TypeScript sources under `src/datasource/src`).  The TypeScript functions
relevant to the frozen claims are shallowly embedded here over a JSON-like
value type `JValue` that models the parsed JSON payloads and arbitrary
JavaScript values flowing through the untyped (`any`) parts of the code.

Host-JavaScript primitives that the plugin calls but does not define
(`Date.now()`, `new Date(x).getTime()`, `JSON.stringify`, `String(x)`
coercion for template literals, `parseFloat`, and the message text of a
thrown `TypeError`) are collected in a `JsEnv` record and all embedded
functions are parametric in it; the plugin's own logic is translated
literally from the source.
-/

namespace Mirador

/-- JavaScript runtime values (the result of `JSON.parse` plus the extra
runtime values `undefined` and `NaN` that the plugin code can produce). -/
inductive JValue where
  | null : JValue
  | undefined : JValue
  | nan : JValue
  | bool : Bool → JValue
  | num : Rat → JValue
  | str : String → JValue
  | arr : List JValue → JValue
  | obj : List (String × JValue) → JValue

/-- JavaScript truthiness: `undefined`, `null`, `NaN`, `false`, `0` and the
empty string are falsy; every object and array (including `[]` and `{}`)
is truthy. -/
def jsTruthy : JValue → Bool
  | .null => false
  | .undefined => false
  | .nan => false
  | .bool b => b
  | .num q => !(q == 0)
  | .str s => !(s == "")
  | .arr _ => true
  | .obj _ => true

/-- JavaScript disjunction `a || b`: the first operand if truthy, otherwise the second. -/
def jsOr (a b : JValue) : JValue :=
  if jsTruthy a then a else b

/-- The values `null` and `undefined` are the values on which property access throws. -/
def isNullish : JValue → Bool
  | .null => true
  | .undefined => true
  | _ => false

/-- First binding of a key in a JS object's (insertion-ordered) field list. -/
def lookupField : List (String × JValue) → String → Option JValue
  | [], _ => none
  | (k, v) :: rest, key => if k = key then some v else lookupField rest key

/-- Property read `base.key` on a non-nullish base: objects yield the bound
value or `undefined`; primitives and arrays yield `undefined` for the
(non-numeric, non-`length`) property names the plugin reads. -/
def JValue.getProp : JValue → String → JValue
  | .obj fs, key => (lookupField fs key).getD .undefined
  | _, _ => .undefined

/-- Property read `base.key` as the code performs it: `none` models the
`TypeError` thrown when `base` is `null`/`undefined`. -/
def JValue.propOpt (v : JValue) (key : String) : Option JValue :=
  if isNullish v then none else some (v.getProp key)

/-- Optional chaining `base?.key`: `undefined` on a nullish base. -/
def jsOptProp (v : JValue) (key : String) : JValue :=
  if isNullish v then .undefined else v.getProp key

/-- The `Array.isArray` check together with extraction of the elements. -/
def asArray? : JValue → Option (List JValue)
  | .arr xs => some xs
  | _ => none

/-- The pairs of `Object.keys(v)` together with the associated values, in iteration
order: an object's own fields; an array's or string's indexed elements;
empty for primitives. -/
def jsOwnKeys : JValue → List (String × JValue)
  | .obj fs => fs
  | .arr xs => xs.enum.map (fun p => (toString p.1, p.2))
  | .str s => s.toList.enum.map (fun p => (toString p.1, .str (String.singleton p.2)))
  | _ => []

/-- A JS number that may be `NaN` (e.g. a `parseFloat` or `getTime` result),
injected back into `JValue`. -/
def numOrNaN : Option Rat → JValue
  | none => .nan
  | some q => .num q

/-- Host-JavaScript primitives used by the plugin but defined by the
runtime, not by this repository.  `now` is `Date.now()` at the instant of
the call; `dateGetTime v` is `new Date(v).getTime()` (`none` = `NaN`);
`stringify` is `JSON.stringify`; `toStr` is the `String(·)` coercion used
by template literals; `parseFloat` parses a leading decimal number
(`none` = `NaN`); `typeErrorMsg` is the host's message text for the
`TypeError` raised by a property read on `null`/`undefined`. -/
structure JsEnv where
  now : Rat
  dateGetTime : JValue → Option Rat
  stringify : JValue → String
  toStr : JValue → String
  parseFloat : String → Option Rat
  typeErrorMsg : String

/-- Column types used by `createDataFrame` calls in the plugin. -/
inductive FieldType where
  | time : FieldType
  | string : FieldType
  | number : FieldType
deriving DecidableEq

/-- One column of an emitted data frame.  `name` is kept as a `JValue`
because the metrics translator can place a non-string metric name there;
`labels` is the optional labels object attached to metric value columns. -/
structure Field where
  name : JValue
  type : FieldType
  values : List JValue
  labels : JValue := .undefined

/-- The data frame handed to `createDataFrame` (modelled as the record of
its arguments, which is all the claims are about). -/
structure Frame where
  refId : String
  fields : List Field

/-! ## parseLogsResponse (src/datasource/src/datasource.ts lines 364-450) -/

/-- The Grafana backend-proxy unwrap `response?.data || response` shared by
all three translators. -/
def unwrapResponse (response : JValue) : JValue :=
  jsOr (jsOptProp response "data") response

/-- The `if`/`else if` chain of `parseLogsResponse` that locates the log
record list (`data.logs`, `logs`, `data` as array, `data.result`,
`result`), empty when no shape matches.  Each source condition is
`x && Array.isArray(x)`, which is equivalent to `Array.isArray(x)` since
every JS array is truthy. -/
def logsLocate (apiResponse : JValue) : List JValue :=
  match asArray? (jsOptProp (apiResponse.getProp "data") "logs") with
  | some xs => xs
  | none =>
    match asArray? (apiResponse.getProp "logs") with
    | some xs => xs
    | none =>
      match asArray? (apiResponse.getProp "data") with
      | some xs => xs
      | none =>
        match asArray? (jsOptProp (apiResponse.getProp "data") "result") with
        | some xs => xs
        | none =>
          match asArray? (apiResponse.getProp "result") with
          | some xs => xs
          | none => []

/-- Keys excluded from the per-entry label collection in `parseLogsResponse`. -/
def logsExcludedKeys : List String :=
  ["_time", "_msg", "message", "level", "severity", "_stream", "_stream_id"]

/-- The update `labels[key].push(v)`, creating the array at first use; the assoc list
keeps the JS object's key-insertion order. -/
def pushLabel (labels : List (String × List JValue)) (key : String) (v : JValue) :
    List (String × List JValue) :=
  if labels.any (fun p => p.1 = key) then
    labels.map (fun p => if p.1 = key then (p.1, p.2 ++ [v]) else p)
  else
    labels ++ [(key, [v])]

/-- The label-collection step of the `logEntries.forEach` body for one
entry: every own key outside the excluded list pushes `String(entry[key])`. -/
def collectEntryLabels (env : JsEnv) (labels : List (String × List JValue))
    (entry : JValue) : List (String × List JValue) :=
  (jsOwnKeys entry).foldl
    (fun acc p =>
      if p.1 ∈ logsExcludedKeys then acc
      else pushLabel acc p.1 (.str (env.toStr p.2)))
    labels

/-- The timestamp pushed for one log entry:
`entry._time ? new Date(entry._time).getTime() : Date.now()`. -/
def logEntryTime (env : JsEnv) (entry : JValue) : JValue :=
  if jsTruthy (entry.getProp "_time") then
    numOrNaN (env.dateGetTime (entry.getProp "_time"))
  else
    .num env.now

/-- The message pushed for one log entry:
`entry._msg || entry.message || JSON.stringify(entry)`. -/
def logEntryMessage (env : JsEnv) (entry : JValue) : JValue :=
  jsOr (entry.getProp "_msg") (jsOr (entry.getProp "message") (.str (env.stringify entry)))

/-- The level pushed for one log entry:
`entry.severity || entry.level || 'unknown'`. -/
def logEntryLevel (entry : JValue) : JValue :=
  jsOr (entry.getProp "severity") (jsOr (entry.getProp "level") (.str "unknown"))

/-- The method `DataSource.parseLogsResponse`.  Here `none` models a thrown exception: a
property read on a nullish `apiResponse`, or the `forEach` body reading a
property of a nullish log entry. -/
def parseLogsResponse (env : JsEnv) (response : JValue) (refId : String) :
    Option Frame :=
  let apiResponse := unwrapResponse response
  if isNullish apiResponse then none
  else
    let logEntries := logsLocate apiResponse
    if logEntries.length = 0 then
      some { refId := refId, fields :=
        [ { name := .str "timestamp", type := .time, values := [] },
          { name := .str "body", type := .string, values := [] },
          { name := .str "severity", type := .string, values := [] } ] }
    else if logEntries.any isNullish then none
    else
      let times := logEntries.map (logEntryTime env)
      let messages := logEntries.map (logEntryMessage env)
      let levels := logEntries.map logEntryLevel
      let labels := logEntries.foldl (collectEntryLabels env) []
      some { refId := refId, fields :=
        [ { name := .str "timestamp", type := .time, values := times },
          { name := .str "body", type := .string, values := messages },
          { name := .str "severity", type := .string, values := levels } ]
        ++ labels.map (fun p => { name := .str p.1, type := .string, values := p.2 }) }

/-! ## parseMetricsResponse (src/datasource/src/datasource.ts lines 452-513) -/

/-- The chain `apiResponse?.data?.result || apiResponse?.result || []` after the
backend-proxy unwrap. -/
def metricsLocate (response : JValue) : JValue :=
  let apiResponse := unwrapResponse response
  jsOr (jsOr (jsOptProp (jsOptProp apiResponse "data") "result")
             (jsOptProp apiResponse "result"))
       (.arr [])

/-- The empty metrics frame (`Time`/`value` schema). -/
def emptyMetricsFrame (refId : String) : Frame :=
  { refId := refId, fields :=
      [ { name := .str "Time", type := .time, values := [] },
        { name := .str "value", type := .number, values := [] } ] }

/-- Array destructuring `const [a, b] = x` of one `forEach` element:
arrays and strings are iterable (missing positions give `undefined`);
destructuring any other value throws (`none`). -/
def destructPair : JValue → Option (JValue × JValue)
  | .arr xs => some (xs.getD 0 .undefined, xs.getD 1 .undefined)
  | .str s =>
      some ((s.toList.get? 0).elim JValue.undefined (fun c => .str (String.singleton c)),
            (s.toList.get? 1).elim JValue.undefined (fun c => .str (String.singleton c)))
  | _ => none

/-- The coercion `parseFloat(String(x))` as the metrics translator applies it. -/
def parseFloatOfString (env : JsEnv) (x : JValue) : Option Rat :=
  env.parseFloat (env.toStr x)

/-- The part of `parseMetricsResponse` operating on `results[0]` (the code
comments "For now, handle the first result"): metric labels, metric name,
and the `values`/`value` branches with timestamps scaled by 1000.
`none` models the `TypeError` thrown when destructuring a non-iterable
element of `firstResult.values`. -/
def metricsSeriesFrame (env : JsEnv) (firstResult : JValue) (refId : String) :
    Option Frame :=
  let metricLabels := jsOr (firstResult.getProp "metric") (.obj [])
  let metricName :=
    jsOr (metricLabels.getProp "__name__")
      (jsOr (firstResult.getProp "query") (.str "value"))
  match asArray? (firstResult.getProp "values") with
  | some vs =>
    match vs.mapM destructPair with
    | none => none
    | some pairs =>
      let times := pairs.map (fun p =>
        numOrNaN ((parseFloatOfString env p.1).map (fun q => q * 1000)))
      let metricValues := pairs.map (fun p => numOrNaN (parseFloatOfString env p.2))
      some { refId := refId, fields :=
        [ { name := .str "Time", type := .time, values := times },
          { name := metricName, type := .number, values := metricValues,
            labels := metricLabels } ] }
  | none =>
    match asArray? (firstResult.getProp "value") with
    | some xs =>
      let timestamp := xs.getD 0 .undefined
      let value := xs.getD 1 .undefined
      let times := [numOrNaN ((parseFloatOfString env timestamp).map (fun q => q * 1000))]
      let metricValues := [numOrNaN (parseFloatOfString env value)]
      some { refId := refId, fields :=
        [ { name := .str "Time", type := .time, values := times },
          { name := metricName, type := .number, values := metricValues,
            labels := metricLabels } ] }
    | none => some (emptyMetricsFrame refId)

/-- The method `DataSource.parseMetricsResponse`.  Here `none` models a thrown exception:
`results[0]` nullish (the `firstResult.metric` read throws), or a
non-iterable element of `firstResult.values`. -/
def parseMetricsResponse (env : JsEnv) (response : JValue) (refId : String) :
    Option Frame :=
  match asArray? (metricsLocate response) with
  | none => some (emptyMetricsFrame refId)
  | some rs =>
    match rs with
    | [] => some (emptyMetricsFrame refId)
    | firstResult :: _ =>
      if isNullish firstResult then none
      else metricsSeriesFrame env firstResult refId

/-! ## parseTracesResponse (src/datasource/src/datasource.ts lines 515-561) -/

/-- The chain `apiResponse?.traces || apiResponse?.data?.traces || []` after the
backend-proxy unwrap. -/
def tracesLocate (response : JValue) : JValue :=
  let apiResponse := unwrapResponse response
  jsOr (jsOr (jsOptProp apiResponse "traces")
             (jsOptProp (jsOptProp apiResponse "data") "traces"))
       (.arr [])

/-- The empty traces frame (five-column schema). -/
def emptyTracesFrame (refId : String) : Frame :=
  { refId := refId, fields :=
      [ { name := .str "traceID", type := .string, values := [] },
        { name := .str "startTime", type := .time, values := [] },
        { name := .str "duration", type := .number, values := [] },
        { name := .str "serviceName", type := .string, values := [] },
        { name := .str "operationName", type := .string, values := [] } ] }

/-- Per-trace row extraction of `parseTracesResponse`'s `forEach`. -/
def traceRowTraceID (t : JValue) : JValue :=
  jsOr (t.getProp "traceID") (jsOr (t.getProp "trace_id") (.str ""))

/-- The expression `new Date(trace.startTime || trace.start_time || 0).getTime()`. -/
def traceRowStartTime (env : JsEnv) (t : JValue) : JValue :=
  numOrNaN (env.dateGetTime
    (jsOr (t.getProp "startTime") (jsOr (t.getProp "start_time") (.num 0))))

/-- The expression `trace.duration || 0`. -/
def traceRowDuration (t : JValue) : JValue :=
  jsOr (t.getProp "duration") (.num 0)

/-- The expression `trace.serviceName || trace.service_name || ''`. -/
def traceRowServiceName (t : JValue) : JValue :=
  jsOr (t.getProp "serviceName") (jsOr (t.getProp "service_name") (.str ""))

/-- The expression `trace.operationName || trace.operation_name || ''`. -/
def traceRowOperationName (t : JValue) : JValue :=
  jsOr (t.getProp "operationName") (jsOr (t.getProp "operation_name") (.str ""))

/-- The method `DataSource.parseTracesResponse`.  Here `none` models the `TypeError` thrown
by the `forEach` body on a nullish trace element. -/
def parseTracesResponse (env : JsEnv) (response : JValue) (refId : String) :
    Option Frame :=
  match asArray? (tracesLocate response) with
  | none => some (emptyTracesFrame refId)
  | some traces =>
    if traces.length = 0 then some (emptyTracesFrame refId)
    else if traces.any isNullish then none
    else
      some { refId := refId, fields :=
        [ { name := .str "traceID", type := .string,
            values := traces.map traceRowTraceID },
          { name := .str "startTime", type := .time,
            values := traces.map (traceRowStartTime env) },
          { name := .str "duration", type := .number,
            values := traces.map traceRowDuration },
          { name := .str "serviceName", type := .string,
            values := traces.map traceRowServiceName },
          { name := .str "operationName", type := .string,
            values := traces.map traceRowOperationName } ] }

/-! ## DataSource.query (src/datasource/src/datasource.ts lines 260-362)

The switch dispatches on `target.queryType`; each arm awaits exactly one
`MiradorAPIClient` call (for `metrics`, the inner `metricsQueryType`
switch picks which endpoint, but every sub-case is a single awaited call)
and feeds the response to the domain's translator.  The HTTP layer is
abstracted as a `transport` oracle giving, per target, either the parsed
response delivered by the awaited client call or a thrown error. -/

/-- The per-target fields of `MyQuery` that determine control flow in
`DataSource.query`; the request-building fields (`queryText`,
`queryEngine`, `step`, ...) only shape the HTTP call and are absorbed into
the transport oracle. -/
structure Target where
  refId : String
  queryType : Option String

/-- The two-point frame built both in the `default` arm and in the `catch`
arm of the per-target closure: `Time = [from, to]`, `value = [0, 0]`. -/
def placeholderFrame (refId : String) (fromMs toMs : Rat) : Frame :=
  { refId := refId, fields :=
      [ { name := .str "Time", type := .time, values := [.num fromMs, .num toMs] },
        { name := .str "value", type := .number, values := [.num 0, .num 0] } ] }

/-- Lift a translator result into the target computation: a translator
throw (`none`) propagates as an exception. -/
def frameOrThrow : Option Frame → Except Unit Frame
  | some f => .ok f
  | none => .error ()

/-- The `try` body of the per-target closure in `DataSource.query`:
dispatch on `queryType`, await the client call, translate.  `.error ()`
is any thrown error (transport failure or translator throw). -/
def runTargetExc (env : JsEnv) (transport : Target → Except Unit JValue)
    (fromMs toMs : Rat) (t : Target) : Except Unit Frame :=
  match t.queryType with
  | some "logs" =>
    match transport t with
    | .error e => .error e
    | .ok r => frameOrThrow (parseLogsResponse env r t.refId)
  | some "metrics" =>
    match transport t with
    | .error e => .error e
    | .ok r => frameOrThrow (parseMetricsResponse env r t.refId)
  | some "traces" =>
    match transport t with
    | .error e => .error e
    | .ok r => frameOrThrow (parseTracesResponse env r t.refId)
  | _ => .ok (placeholderFrame t.refId fromMs toMs)

/-- One target's frame: the `try` body, with the `catch` substituting the
placeholder two-point frame on any thrown error. -/
def runTarget (env : JsEnv) (transport : Target → Except Unit JValue)
    (fromMs toMs : Rat) (t : Target) : Frame :=
  match runTargetExc env transport fromMs toMs t with
  | .ok f => f
  | .error _ => placeholderFrame t.refId fromMs toMs

/-- The `data` array resolved by `DataSource.query`
(`Promise.all(options.targets.map(...))`). -/
def queryData (env : JsEnv) (transport : Target → Except Unit JValue)
    (fromMs toMs : Rat) (targets : List Target) : List Frame :=
  targets.map (runTarget env transport fromMs toMs)

/-! ## MiradorAPIClient (src/datasource/src/api/MiradorAPIClient.ts) -/

/-- The headers record built by `MiradorAPIClient.request` (lines 25-31):
`Authorization: Bearer <token>` when the configured token is truthy, then
`X-Tenant-ID` when the configured tenant id is truthy.  `none` models an
unconfigured (absent / `undefined`) setting. -/
def requestHeaders (token tenantId : Option String) : List (String × String) :=
  (match token with
   | none => []
   | some s => if s = "" then [] else [("Authorization", "Bearer " ++ s)]) ++
  (match tenantId with
   | none => []
   | some s => if s = "" then [] else [("X-Tenant-ID", s)])

/-- What `MiradorAPIClient.request` can throw: the `MiradorAPIError`
wrapper (carrying `error.message || 'API request failed'` and
`error.status`), or the `TypeError` raised when the rejected value is
itself nullish and `error.message` cannot be read. -/
inductive Thrown where
  | apiError : JValue → JValue → Thrown
  | typeError : Thrown

/-- The method `MiradorAPIClient.request` (lines 18-47) after the fetch: a successful
`lastValueFrom` result is returned unmodified; a rejection `e` is rethrown
as `MiradorAPIError(e.message || 'API request failed', e.status)`. -/
def requestModel (fetchResult : Except JValue JValue) : Except Thrown JValue :=
  match fetchResult with
  | .ok r => .ok r
  | .error e =>
    match e.propOpt "message" with
    | none => .error .typeError
    | some m => .error (.apiError (jsOr m (.str "API request failed")) (e.getProp "status"))

/-! ## testDatasource (src/datasource/src/datasource.ts lines 563-604) -/

/-- JS strict equality `v === n` against a number literal. -/
def strictEqNum (v : JValue) (q : Rat) : Bool :=
  match v with
  | .num r => r == q
  | _ => false

/-- JS strict equality `v === s` against a string literal. -/
def strictEqStr (v : JValue) (s : String) : Bool :=
  match v with
  | .str t => t == s
  | _ => false

/-- The record returned by `testDatasource`; `message` is kept as a
`JValue` because the `catch` branch stores `err.message` unconverted. -/
structure TestResult where
  status : String
  message : JValue

/-- The method `DataSource.testDatasource`.  Here `healthOutcome` is the settled
`this.client.health()` promise: the fetch response object, or the thrown
error.  `none` models the one way the method itself can reject: the
`catch` body reading `err.message` off a nullish thrown value (never
produced by `MiradorAPIClient.request`).  A nullish 200-less response
object makes `healthResponse.status` throw a `TypeError` inside the `try`,
which the `catch` converts into an error result carrying the host's
`TypeError` message. -/
def testDatasourceModel (env : JsEnv) (healthOutcome : Except JValue JValue) :
    Option TestResult :=
  match healthOutcome with
  | .error err =>
    match err.propOpt "message" with
    | none => none
    | some m => some { status := "error", message := jsOr m (.str "Cannot connect to API") }
  | .ok healthResponse =>
    match healthResponse.propOpt "status" with
    | none =>
      some { status := "error",
             message := jsOr (.str env.typeErrorMsg) (.str "Cannot connect to API") }
    | some st =>
      if strictEqNum st 200 then
        let data := healthResponse.getProp "data"
        if jsTruthy data &&
            (strictEqStr (data.getProp "status") "healthy"
              || strictEqStr (data.getProp "status") "ok") then
          some { status := "success",
                 message := .str ("Successfully connected to "
                   ++ env.toStr (jsOr (data.getProp "service") (.str "Mirador Core"))
                   ++ " v"
                   ++ env.toStr (jsOr (data.getProp "version") (.str "unknown"))) }
        else if jsTruthy data then
          some { status := "error",
                 message := .str ("Service status: "
                   ++ env.toStr (jsOr (data.getProp "status") (.str "unknown"))) }
        else
          some { status := "success",
                 message := .str "Successfully connected to Mirador Core API" }
      else
        some { status := "error",
               message := .str ("HTTP " ++ env.toStr st ++ ": "
                 ++ env.toStr (jsOr (healthResponse.getProp "statusText")
                      (.str "Connection failed"))) }

/-! ## buildLuceneQuery (src/datasource/src/components/QueryEditor.tsx lines 219-269) -/

/-- One visual filter condition.  `operator` is kept as a string so the
source switch's `default` arm stays meaningful; `logicalOperator` is the
optional `'AND' | 'OR'` connective. -/
structure VisualQueryCondition where
  field : String
  operator : String
  value : String
  logicalOperator : Option String

/-- Truthiness of the optional `logicalOperator` string. -/
def optStrTruthy : Option String → Bool
  | none => false
  | some s => !(s == "")

/-- The `switch (condition.operator)` of `buildLuceneQuery`. -/
def luceneConditionFragment (c : VisualQueryCondition) : String :=
  match c.operator with
  | "equals" => c.field ++ ":\"" ++ c.value ++ "\""
  | "not_equals" => "NOT " ++ c.field ++ ":\"" ++ c.value ++ "\""
  | "contains" => c.field ++ ":*" ++ c.value ++ "*"
  | "not_contains" => "NOT " ++ c.field ++ ":*" ++ c.value ++ "*"
  | "starts_with" => c.field ++ ":" ++ c.value ++ "*"
  | "ends_with" => c.field ++ ":*" ++ c.value
  | "regex" => c.field ++ ":/" ++ c.value ++ "/"
  | "gt" => c.field ++ ":\x7b" ++ c.value ++ " TO *\x7d"
  | "gte" => c.field ++ ":[" ++ c.value ++ " TO *]"
  | "lt" => c.field ++ ":\x7b* TO " ++ c.value ++ "\x7d"
  | "lte" => c.field ++ ":[* TO " ++ c.value ++ "]"
  | _ => c.field ++ ":\"" ++ c.value ++ "\""

/-- The indexed map `Array.prototype.map((x, i) => f i x)` starting at index `i`. -/
def mapWithIndex (f : Nat → VisualQueryCondition → String) :
    Nat → List VisualQueryCondition → List String
  | _, [] => []
  | i, c :: rest => f i c :: mapWithIndex f (i + 1) rest

/-- The join `Array.prototype.join('')`. -/
def joinStrings : List String → String
  | [] => ""
  | s :: rest => s ++ joinStrings rest

/-- The body of the `conditions.map((condition, index) => ...)` callback:
the switch fragment, prefixed with `' <op> '` when `index > 0` and the
condition's `logicalOperator` is truthy. -/
def luceneMapBody (i : Nat) (c : VisualQueryCondition) : String :=
  let q := luceneConditionFragment c
  if i > 0 && optStrTruthy c.logicalOperator then
    " " ++ c.logicalOperator.getD "" ++ " " ++ q
  else q

/-- The function `buildLuceneQuery`: empty input yields `''`; otherwise the indexed map
prefixes each fragment after the first that has a (truthy)
`logicalOperator` with `' <op> '`, and the fragments are joined with `''`. -/
def buildLuceneQuery (conditions : List VisualQueryCondition) : String :=
  if conditions.length = 0 then ""
  else joinStrings (mapWithIndex luceneMapBody 0 conditions)

/-! ## Specification-side definitions

These follow the wording of the specification / claims (not the source),
for comparison with the source-derived definitions above. -/

/-- Spec side (claim C3): the fixed ordered list of envelope shapes tried
by the logs translator — `data.logs`, `logs`, `data` itself, `data.result`,
`result`. -/
def logShapeGetters : List (JValue → JValue) :=
  [ fun r => jsOptProp (r.getProp "data") "logs",
    fun r => r.getProp "logs",
    fun r => r.getProp "data",
    fun r => jsOptProp (r.getProp "data") "result",
    fun r => r.getProp "result" ]

/-- Spec side (claim C3): the records of the first shape in the list that
is an array; empty when none matches. -/
def firstArrayShape (r : JValue) : List (JValue → JValue) → List JValue
  | [] => []
  | g :: gs =>
    match asArray? (g r) with
    | some xs => xs
    | none => firstArrayShape r gs

/-- Spec side (claims C7): the fragments of every condition after the
first, each prefixed with `' <op> '` when it has a truthy
`logicalOperator`, concatenated in order. -/
def specLuceneRest : List VisualQueryCondition → String
  | [] => ""
  | c :: rest =>
    (if optStrTruthy c.logicalOperator then
       " " ++ c.logicalOperator.getD "" ++ " " ++ luceneConditionFragment c
     else luceneConditionFragment c) ++ specLuceneRest rest

/-- Spec side (claim C7): the first condition's fragment (never prefixed)
followed by the remaining prefixed fragments; `''` for the empty list. -/
def specLuceneConcat : List VisualQueryCondition → String
  | [] => ""
  | c :: rest => luceneConditionFragment c ++ specLuceneRest rest

/-- Spec side (claim C8, amended): the value of the first key in the list
whose property value is truthy, or the default. -/
def firstTruthyProp (entry : JValue) : List String → JValue → JValue
  | [], dflt => dflt
  | k :: rest, dflt => jsOr (entry.getProp k) (firstTruthyProp entry rest dflt)

/-- Spec side (claim C5): the health outcomes the claim designates as
success — HTTP status strictly 200 and either falsy payload data or a
payload `status` of `'healthy'` or `'ok'`. -/
def specHealthSuccess : Except JValue JValue → Bool
  | .error _ => false
  | .ok hr =>
    !(isNullish hr) && strictEqNum (hr.getProp "status") 200 &&
      (!(jsTruthy (hr.getProp "data"))
        || strictEqStr ((hr.getProp "data").getProp "status") "healthy"
        || strictEqStr ((hr.getProp "data").getProp "status") "ok")

/-! ## Concrete fixtures used by witnesses and counterexamples -/

/-- A concrete host environment for evaluating witnesses: clock at 0, every
date parse yields 7 ms, stringification and coercion return fixed strings,
`parseFloat` always `NaN`. -/
def sampleEnv : JsEnv :=
  { now := 0, dateGetTime := fun _ => some 7, stringify := fun _ => "STR",
    toStr := fun _ => "TS", parseFloat := fun _ => none, typeErrorMsg := "TypeError" }

/-- A copy of `sampleEnv` one millisecond later: identical host functions, only the
`Date.now()` instant differs. -/
def sampleEnvLater : JsEnv := { sampleEnv with now := 1 }

/-- A transport oracle whose every call rejects. -/
def failingTransport : Target → Except Unit JValue := fun _ => .error ()

/-! ## Claim theorems -/

/-- C1: in `DataSource.query`, if executing a target throws (transport
failure, parse failure, or any other error in the `try` body), the `catch`
substitutes the placeholder two-point frame (`Time = [from, to]`,
`value = [0, 0]`, the target's `refId`) for that target, and the method
still resolves with a `data` array of one frame per target — one failing
target never rejects the whole request. -/
theorem claim1_query_isolates_target_failures
    (env : JsEnv) (transport : Target → Except Unit JValue) (fromMs toMs : Rat)
    (targets : List Target) (i : Nat) (t : Target)
    (ht : targets[i]? = some t)
    (hfail : runTargetExc env transport fromMs toMs t = .error ()) :
    (queryData env transport fromMs toMs targets)[i]?
        = some (placeholderFrame t.refId fromMs toMs)
    ∧ (queryData env transport fromMs toMs targets).length = targets.length := by
  constructor
  · unfold queryData
    rw [List.getElem?_map, ht, Option.map]
    unfold runTarget
    rw [hfail]
  · unfold queryData
    exact List.length_map _ _

/-- Witness for C1: a single logs target whose transport call rejects is
replaced by the placeholder frame and the response still has one entry. -/
theorem claim1_witness :
    (queryData sampleEnv failingTransport 0 1 [{ refId := "A", queryType := some "logs" }])[0]?
        = some (placeholderFrame "A" 0 1)
    ∧ (queryData sampleEnv failingTransport 0 1 [{ refId := "A", queryType := some "logs" }]).length
        = 1 :=
  claim1_query_isolates_target_failures sampleEnv failingTransport 0 1
    [{ refId := "A", queryType := some "logs" }] 0
    { refId := "A", queryType := some "logs" } rfl rfl

/-- C2: on an envelope in which no known record shape matches or the
located record list is empty, each translator returns an empty frame with
the domain's expected column schema: logs `timestamp`/`body`/`severity`,
metrics `Time`/`value`, traces
`traceID`/`startTime`/`duration`/`serviceName`/`operationName`.  (For the
logs translator the response must be non-nullish — it always is, being the
fetch result object — since a nullish one makes the property reads throw.) -/
theorem claim2_empty_or_unmatched_envelopes_give_empty_schema_frames
    (env : JsEnv) (refId : String) (rl rm rt : JValue)
    (hl0 : isNullish (unwrapResponse rl) = false)
    (hl : logsLocate (unwrapResponse rl) = [])
    (hm : asArray? (metricsLocate rm) = none ∨ asArray? (metricsLocate rm) = some [])
    (htr : asArray? (tracesLocate rt) = none ∨ asArray? (tracesLocate rt) = some []) :
    parseLogsResponse env rl refId = some { refId := refId, fields :=
      [ { name := .str "timestamp", type := .time, values := [] },
        { name := .str "body", type := .string, values := [] },
        { name := .str "severity", type := .string, values := [] } ] }
    ∧ parseMetricsResponse env rm refId = some { refId := refId, fields :=
      [ { name := .str "Time", type := .time, values := [] },
        { name := .str "value", type := .number, values := [] } ] }
    ∧ parseTracesResponse env rt refId = some { refId := refId, fields :=
      [ { name := .str "traceID", type := .string, values := [] },
        { name := .str "startTime", type := .time, values := [] },
        { name := .str "duration", type := .number, values := [] },
        { name := .str "serviceName", type := .string, values := [] },
        { name := .str "operationName", type := .string, values := [] } ] } := by
  refine ⟨?_, ?_, ?_⟩
  · unfold parseLogsResponse
    simp [hl0, hl]
  · unfold parseMetricsResponse emptyMetricsFrame
    rcases hm with h | h <;> simp [h]
  · unfold parseTracesResponse emptyTracesFrame
    rcases htr with h | h <;> simp [h]

/-- Witness for C2: the bare object envelope `{}` matches no shape in any
domain and yields the three empty schema frames. -/
theorem claim2_witness :
    parseLogsResponse sampleEnv (.obj []) "A" = some { refId := "A", fields :=
      [ { name := .str "timestamp", type := .time, values := [] },
        { name := .str "body", type := .string, values := [] },
        { name := .str "severity", type := .string, values := [] } ] }
    ∧ parseMetricsResponse sampleEnv (.obj []) "A" = some { refId := "A", fields :=
      [ { name := .str "Time", type := .time, values := [] },
        { name := .str "value", type := .number, values := [] } ] }
    ∧ parseTracesResponse sampleEnv (.obj []) "A" = some { refId := "A", fields :=
      [ { name := .str "traceID", type := .string, values := [] },
        { name := .str "startTime", type := .time, values := [] },
        { name := .str "duration", type := .number, values := [] },
        { name := .str "serviceName", type := .string, values := [] },
        { name := .str "operationName", type := .string, values := [] } ] } :=
  claim2_empty_or_unmatched_envelopes_give_empty_schema_frames sampleEnv "A"
    (.obj []) (.obj []) (.obj []) rfl rfl (Or.inr rfl) (Or.inr rfl)

/-- C3: the logs translator locates records by trying `data.logs`, `logs`,
`data` itself, `data.result`, `result` in that fixed order, using the
records of the first shape that is an array — when several shapes are
present simultaneously, the earlier one wins. -/
theorem claim3_logs_shape_priority (apiResponse : JValue) :
    logsLocate apiResponse = firstArrayShape apiResponse logShapeGetters := by
  unfold logsLocate firstArrayShape logShapeGetters
  rfl

/-- C4, counterexample: a transport rejection whose `message` property is
present but the empty string is wrapped into a `MiradorAPIError` carrying
the fallback text `'API request failed'`, not the transport error's own
(empty) message — so the fallback is not applied only "when absent". -/
theorem claim4_counterexample :
    requestModel (.error (.obj [("message", .str ""), ("status", .num 500)]))
        = .error (.apiError (.str "API request failed") (.num 500))
    ∧ (.obj [("message", .str ""), ("status", .num 500)] : JValue).getProp "message"
        = .str ""
    ∧ JValue.str "API request failed" ≠ JValue.str "" := by
  refine ⟨rfl, rfl, ?_⟩
  intro h
  exact absurd (JValue.str.inj h) (by decide)

/-- C4, amended: on transport success `request` returns the parsed result
unmodified; on a transport failure with a non-nullish error it throws a
`MiradorAPIError` whose message is the error's `message` when that is
truthy and `'API request failed'` when it is absent or falsy (e.g. empty),
and whose status carries the error's `status` property. -/
theorem claim4_request_wraps_transport_failures
    (fetchResult : Except JValue JValue) :
    (∀ r, fetchResult = .ok r → requestModel fetchResult = .ok r)
    ∧ (∀ e, fetchResult = .error e → isNullish e = false →
        requestModel fetchResult
          = .error (.apiError (jsOr (e.getProp "message") (.str "API request failed"))
              (e.getProp "status"))) := by
  constructor
  · intro r hr
    subst hr
    rfl
  · intro e he hne
    subst he
    simp [requestModel, JValue.propOpt, hne]

/-- Witness for C4 (amended): a success passes through unmodified and a
rejection carrying only a status gets the fallback message with that
status. -/
theorem claim4_witness :
    requestModel (.ok (.str "payload")) = .ok (.str "payload")
    ∧ requestModel (.error (.obj [("status", .num 502)]))
        = .error (.apiError (.str "API request failed") (.num 502)) :=
  ⟨(claim4_request_wraps_transport_failures (.ok (.str "payload"))).1 _ rfl,
   (claim4_request_wraps_transport_failures (.error (.obj [("status", .num 502)]))).2 _ rfl rfl⟩

/-- C5: `testDatasource` never throws (its `catch` wraps the whole body;
the hypothesis that a rejected health call carries a non-nullish error is
guaranteed by `MiradorAPIClient.request`, which only throws Error
objects), returns `'success'` exactly when the health call resolves with
HTTP status 200 and either falsy payload data or a payload status of
`'healthy'`/`'ok'`, and in the other outcomes returns `'error'` with a
message built from the HTTP status (non-200), the payload's status field
(200 but unhealthy), or the caught error's message (transport failure). -/
theorem claim5_testDatasource_outcomes
    (env : JsEnv) (healthOutcome : Except JValue JValue)
    (hno : ∀ e, healthOutcome = .error e → isNullish e = false) :
    (testDatasourceModel env healthOutcome).isSome = true
    ∧ (∀ res, testDatasourceModel env healthOutcome = some res →
        (res.status = "success" ↔ specHealthSuccess healthOutcome = true)
        ∧ (∀ hr, healthOutcome = .ok hr → isNullish hr = false →
            strictEqNum (hr.getProp "status") 200 = false →
            res.message = .str ("HTTP " ++ env.toStr (hr.getProp "status") ++ ": "
              ++ env.toStr (jsOr (hr.getProp "statusText") (.str "Connection failed"))))
        ∧ (∀ hr, healthOutcome = .ok hr → isNullish hr = false →
            strictEqNum (hr.getProp "status") 200 = true →
            jsTruthy (hr.getProp "data") = true →
            strictEqStr ((hr.getProp "data").getProp "status") "healthy" = false →
            strictEqStr ((hr.getProp "data").getProp "status") "ok" = false →
            res.message = .str ("Service status: "
              ++ env.toStr (jsOr ((hr.getProp "data").getProp "status") (.str "unknown"))))
        ∧ (∀ e, healthOutcome = .error e →
            res.message = jsOr (e.getProp "message") (.str "Cannot connect to API"))) := by
  cases healthOutcome with
  | error e =>
    have hne : isNullish e = false := hno e rfl
    have hstep : testDatasourceModel env (.error e)
        = some { status := "error",
                 message := jsOr (e.getProp "message") (.str "Cannot connect to API") } := by
      simp [testDatasourceModel, JValue.propOpt, hne]
    rw [hstep]
    refine ⟨rfl, ?_⟩
    intro res hres
    obtain rfl := Option.some.inj hres
    refine ⟨by simp [specHealthSuccess], ?_, ?_, ?_⟩
    · intro hr h; cases h
    · intro hr h; cases h
    · intro e2 h
      cases h
      rfl
  | ok hr =>
    cases hnr : isNullish hr with
    | true =>
      have hstep : testDatasourceModel env (.ok hr)
          = some { status := "error",
                   message := jsOr (.str env.typeErrorMsg) (.str "Cannot connect to API") } := by
        simp [testDatasourceModel, JValue.propOpt, hnr]
      rw [hstep]
      refine ⟨rfl, ?_⟩
      intro res hres
      obtain rfl := Option.some.inj hres
      refine ⟨by simp [specHealthSuccess, hnr], ?_, ?_, ?_⟩
      · intro hr2 h hn2
        cases h
        rw [hnr] at hn2
        cases hn2
      · intro hr2 h hn2
        cases h
        rw [hnr] at hn2
        cases hn2
      · intro e2 h; cases h
    | false =>
      cases h200 : strictEqNum (hr.getProp "status") 200 with
      | false =>
        have hstep : testDatasourceModel env (.ok hr)
            = some { status := "error",
                     message := .str ("HTTP " ++ env.toStr (hr.getProp "status") ++ ": "
                       ++ env.toStr (jsOr (hr.getProp "statusText")
                            (.str "Connection failed"))) } := by
          simp [testDatasourceModel, JValue.propOpt, hnr, h200]
        rw [hstep]
        refine ⟨rfl, ?_⟩
        intro res hres
        obtain rfl := Option.some.inj hres
        refine ⟨by simp [specHealthSuccess, hnr, h200], ?_, ?_, ?_⟩
        · intro hr2 h _ _
          cases h
          rfl
        · intro hr2 h _ h200b
          cases h
          rw [h200] at h200b
          cases h200b
        · intro e2 h; cases h
      | true =>
        cases hd : jsTruthy (hr.getProp "data") with
        | false =>
          have hstep : testDatasourceModel env (.ok hr)
              = some { status := "success",
                       message := .str "Successfully connected to Mirador Core API" } := by
            simp [testDatasourceModel, JValue.propOpt, hnr, h200, hd]
          rw [hstep]
          refine ⟨rfl, ?_⟩
          intro res hres
          obtain rfl := Option.some.inj hres
          refine ⟨by simp [specHealthSuccess, hnr, h200, hd], ?_, ?_, ?_⟩
          · intro hr2 h _ h200b
            cases h
            rw [h200] at h200b
            cases h200b
          · intro hr2 h _ _ hdb
            cases h
            rw [hd] at hdb
            cases hdb
          · intro e2 h; cases h
        | true =>
          cases hh : strictEqStr ((hr.getProp "data").getProp "status") "healthy" with
          | true =>
            have hstep : testDatasourceModel env (.ok hr)
                = some { status := "success",
                         message := .str ("Successfully connected to "
                           ++ env.toStr (jsOr ((hr.getProp "data").getProp "service")
                                (.str "Mirador Core"))
                           ++ " v"
                           ++ env.toStr (jsOr ((hr.getProp "data").getProp "version")
                                (.str "unknown"))) } := by
              simp [testDatasourceModel, JValue.propOpt, hnr, h200, hd, hh]
            rw [hstep]
            refine ⟨rfl, ?_⟩
            intro res hres
            obtain rfl := Option.some.inj hres
            refine ⟨by simp [specHealthSuccess, hnr, h200, hd, hh], ?_, ?_, ?_⟩
            · intro hr2 h _ h200b
              cases h
              rw [h200] at h200b
              cases h200b
            · intro hr2 h _ _ _ hhb _
              cases h
              rw [hh] at hhb
              cases hhb
            · intro e2 h; cases h
          | false =>
            cases hk : strictEqStr ((hr.getProp "data").getProp "status") "ok" with
            | true =>
              have hstep : testDatasourceModel env (.ok hr)
                  = some { status := "success",
                           message := .str ("Successfully connected to "
                             ++ env.toStr (jsOr ((hr.getProp "data").getProp "service")
                                  (.str "Mirador Core"))
                             ++ " v"
                             ++ env.toStr (jsOr ((hr.getProp "data").getProp "version")
                                  (.str "unknown"))) } := by
                simp [testDatasourceModel, JValue.propOpt, hnr, h200, hd, hh, hk]
              rw [hstep]
              refine ⟨rfl, ?_⟩
              intro res hres
              obtain rfl := Option.some.inj hres
              refine ⟨by simp [specHealthSuccess, hnr, h200, hd, hh, hk], ?_, ?_, ?_⟩
              · intro hr2 h _ h200b
                cases h
                rw [h200] at h200b
                cases h200b
              · intro hr2 h _ _ _ _ hkb
                cases h
                rw [hk] at hkb
                cases hkb
              · intro e2 h; cases h
            | false =>
              have hstep : testDatasourceModel env (.ok hr)
                  = some { status := "error",
                           message := .str ("Service status: "
                             ++ env.toStr (jsOr ((hr.getProp "data").getProp "status")
                                  (.str "unknown"))) } := by
                simp [testDatasourceModel, JValue.propOpt, hnr, h200, hd, hh, hk]
              rw [hstep]
              refine ⟨rfl, ?_⟩
              intro res hres
              obtain rfl := Option.some.inj hres
              refine ⟨by simp [specHealthSuccess, hnr, h200, hd, hh, hk], ?_, ?_, ?_⟩
              · intro hr2 h _ h200b
                cases h
                rw [h200] at h200b
                cases h200b
              · intro hr2 h _ _ _ _ _
                cases h
                rfl
              · intro e2 h; cases h

/-- Witness for C5: a healthy 200 response yields a success result, and a
rejected health call with message `'boom'` yields an error result carrying
that message. -/
theorem claim5_witness :
    (testDatasourceModel sampleEnv
      (.ok (.obj [("status", .num 200), ("data", .obj [("status", .str "healthy")])]))).isSome
        = true
    ∧ (testDatasourceModel sampleEnv (.error (.obj [("message", .str "boom")]))).isSome = true :=
  ⟨(claim5_testDatasource_outcomes sampleEnv
      (.ok (.obj [("status", .num 200), ("data", .obj [("status", .str "healthy")])]))
      (fun e h => by cases h)).1,
   (claim5_testDatasource_outcomes sampleEnv (.error (.obj [("message", .str "boom")]))
      (fun e h => by cases h; rfl)).1⟩

/-- C6: the request helper attaches `X-Tenant-ID` exactly when a (truthy,
i.e. non-empty) tenant id was configured at construction, with the
configured value; it attaches `Authorization: Bearer <token>` exactly when
a (non-empty) token was configured; with neither configured the request
carries no auth or tenant headers at all. -/
theorem claim6_headers_iff_configured (token tenantId : Option String) :
    (∀ v, ("X-Tenant-ID", v) ∈ requestHeaders token tenantId
        ↔ (tenantId = some v ∧ v ≠ ""))
    ∧ (∀ v, ("Authorization", v) ∈ requestHeaders token tenantId
        ↔ (∃ s, token = some s ∧ s ≠ "" ∧ v = "Bearer " ++ s))
    ∧ (token = none → tenantId = none → requestHeaders token tenantId = []) := by
  refine ⟨?_, ?_, ?_⟩
  · intro v
    cases token with
    | none =>
      cases tenantId with
      | none => simp [requestHeaders]
      | some t =>
        by_cases ht : t = "" <;>
          simp [requestHeaders, ht] <;>
          aesop
    | some s =>
      by_cases hs : s = "" <;>
        cases tenantId with
        | none => simp [requestHeaders, hs]
        | some t =>
          by_cases ht : t = "" <;>
            simp [requestHeaders, hs, ht] <;>
            aesop
  · intro v
    cases token with
    | none =>
      cases tenantId with
      | none => simp [requestHeaders]
      | some t =>
        by_cases ht : t = "" <;>
          simp [requestHeaders, ht]
    | some s =>
      by_cases hs : s = "" <;>
        cases tenantId with
        | none => simp [requestHeaders, hs]
        | some t =>
          by_cases ht : t = "" <;>
            simp [requestHeaders, hs, ht]
  · intro h1 h2
    subst h1
    subst h2
    rfl

/-- Witness for C6: with nothing configured the header list is empty. -/
theorem claim6_witness : requestHeaders none none = [] :=
  (claim6_headers_iff_configured none none).2.2 rfl rfl

/-- Helper for C7: the indexed-map tail (every index is positive) equals
the spec-side concatenation of prefixed fragments. -/
theorem mapWithIndex_lucene_tail (rest : List VisualQueryCondition) :
    ∀ n : Nat, 0 < n →
      joinStrings (mapWithIndex luceneMapBody n rest) = specLuceneRest rest := by
  induction rest with
  | nil => intro n _; rfl
  | cons c cs ih =>
    intro n hn
    show luceneMapBody n c ++ joinStrings (mapWithIndex luceneMapBody (n + 1) cs)
        = specLuceneRest (c :: cs)
    rw [ih (n + 1) (Nat.succ_pos n)]
    unfold luceneMapBody
    rw [show decide (n > 0) = true from decide_eq_true hn, Bool.true_and]
    rfl

/-- C7: `buildLuceneQuery` maps each condition's operator to its Lucene
fragment by the fixed table (stated as one equation per operator), yields
`''` on the empty list, and otherwise concatenates the fragments in order,
prefixing every condition after the first that has a (truthy)
`logicalOperator` with `' <op> '`. -/
theorem claim7_buildLuceneQuery_table_and_concat :
    (∀ c : VisualQueryCondition, c.operator = "equals" →
        luceneConditionFragment c = c.field ++ ":\"" ++ c.value ++ "\"")
    ∧ (∀ c : VisualQueryCondition, c.operator = "not_equals" →
        luceneConditionFragment c = "NOT " ++ c.field ++ ":\"" ++ c.value ++ "\"")
    ∧ (∀ c : VisualQueryCondition, c.operator = "contains" →
        luceneConditionFragment c = c.field ++ ":*" ++ c.value ++ "*")
    ∧ (∀ c : VisualQueryCondition, c.operator = "not_contains" →
        luceneConditionFragment c = "NOT " ++ c.field ++ ":*" ++ c.value ++ "*")
    ∧ (∀ c : VisualQueryCondition, c.operator = "starts_with" →
        luceneConditionFragment c = c.field ++ ":" ++ c.value ++ "*")
    ∧ (∀ c : VisualQueryCondition, c.operator = "ends_with" →
        luceneConditionFragment c = c.field ++ ":*" ++ c.value)
    ∧ (∀ c : VisualQueryCondition, c.operator = "regex" →
        luceneConditionFragment c = c.field ++ ":/" ++ c.value ++ "/")
    ∧ (∀ c : VisualQueryCondition, c.operator = "gt" →
        luceneConditionFragment c = c.field ++ ":\x7b" ++ c.value ++ " TO *\x7d")
    ∧ (∀ c : VisualQueryCondition, c.operator = "gte" →
        luceneConditionFragment c = c.field ++ ":[" ++ c.value ++ " TO *]")
    ∧ (∀ c : VisualQueryCondition, c.operator = "lt" →
        luceneConditionFragment c = c.field ++ ":\x7b* TO " ++ c.value ++ "\x7d")
    ∧ (∀ c : VisualQueryCondition, c.operator = "lte" →
        luceneConditionFragment c = c.field ++ ":[* TO " ++ c.value ++ "]")
    ∧ buildLuceneQuery [] = ""
    ∧ (∀ conds, buildLuceneQuery conds = specLuceneConcat conds) := by
  refine ⟨?_, ?_, ?_, ?_, ?_, ?_, ?_, ?_, ?_, ?_, ?_, rfl, ?_⟩
  all_goals try (intro c hc; simp [luceneConditionFragment, hc])
  intro conds
  cases conds with
  | nil => rfl
  | cons c cs =>
    unfold buildLuceneQuery
    rw [if_neg (by simp)]
    unfold mapWithIndex joinStrings specLuceneConcat
    rw [mapWithIndex_lucene_tail cs 1 Nat.one_pos]
    rfl

/-- Witness for C7: the `equals` and `gt` rows of the table at a concrete
condition, discharging the operator hypotheses. -/
theorem claim7_witness :
    luceneConditionFragment ⟨"f", "equals", "v", none⟩ = "f:\"v\""
    ∧ luceneConditionFragment ⟨"g", "gt", "3", some "AND"⟩ = "g:\x7b3 TO *\x7d" :=
  ⟨claim7_buildLuceneQuery_table_and_concat.1 _ rfl,
   claim7_buildLuceneQuery_table_and_concat.2.2.2.2.2.2.2.1 _ rfl⟩

/-- A log entry whose `_msg` key is present but empty, with a `message`
key also present. -/
def falsyMsgEntry : JValue := .obj [("_msg", .str ""), ("message", .str "hi")]

/-- A logs envelope containing just `falsyMsgEntry` under `data.logs`. -/
def falsyMsgLogsResp : JValue := .obj [("data", .obj [("logs", .arr [falsyMsgEntry])])]

/-- C8, counterexample: the fallbacks are driven by JS truthiness, not key
absence.  In the entry `{_msg: "", message: "hi"}` the `_msg` key is
present (with value `""`), yet the emitted message is the `message` field
`"hi"`, not the present `_msg` value — likewise a present-but-`0`
`startTime` would fall through to `start_time`. -/
theorem claim8_counterexample :
    falsyMsgEntry.getProp "_msg" = .str ""
    ∧ logEntryMessage sampleEnv falsyMsgEntry = .str "hi"
    ∧ JValue.str "hi" ≠ JValue.str ""
    ∧ parseLogsResponse sampleEnv falsyMsgLogsResp "A" = some { refId := "A", fields :=
        [ { name := .str "timestamp", type := .time, values := [.num 0] },
          { name := .str "body", type := .string, values := [.str "hi"] },
          { name := .str "severity", type := .string, values := [.str "unknown"] } ] }
    ∧ traceRowStartTime sampleEnv (.obj [("startTime", .num 0), ("start_time", .num 5)])
        = numOrNaN (sampleEnv.dateGetTime (.num 5)) := by
  refine ⟨rfl, rfl, ?_, rfl, rfl⟩
  intro h
  exact absurd (JValue.str.inj h) (by decide)

/-- C8, amended: field extraction applies literal key fallbacks driven by
truthiness — a chain falls through when a key is absent *or* its value is
falsy (`''`, `0`, `null`, `false`, `NaN`) — with a default when every key
falls through: message `_msg`/`message` else `JSON.stringify(entry)`;
severity `severity`/`level` else `'unknown'`; timestamp from `_time`
(via `new Date(...).getTime()`) when truthy, else the current time; trace
rows `traceID`/`trace_id` else `''`, `startTime`/`start_time` else `0`
(fed to `new Date(...).getTime()`), `serviceName`/`service_name` and
`operationName`/`operation_name` else `''`, `duration` else `0`. -/
theorem claim8_field_fallbacks (env : JsEnv) (entry trace : JValue) :
    logEntryMessage env entry
        = firstTruthyProp entry ["_msg", "message"] (.str (env.stringify entry))
    ∧ logEntryLevel entry = firstTruthyProp entry ["severity", "level"] (.str "unknown")
    ∧ (jsTruthy (entry.getProp "_time") = false → logEntryTime env entry = .num env.now)
    ∧ (jsTruthy (entry.getProp "_time") = true →
        logEntryTime env entry = numOrNaN (env.dateGetTime (entry.getProp "_time")))
    ∧ traceRowTraceID trace = firstTruthyProp trace ["traceID", "trace_id"] (.str "")
    ∧ traceRowStartTime env trace
        = numOrNaN (env.dateGetTime (firstTruthyProp trace ["startTime", "start_time"] (.num 0)))
    ∧ traceRowServiceName trace
        = firstTruthyProp trace ["serviceName", "service_name"] (.str "")
    ∧ traceRowOperationName trace
        = firstTruthyProp trace ["operationName", "operation_name"] (.str "")
    ∧ traceRowDuration trace = firstTruthyProp trace ["duration"] (.num 0) := by
  refine ⟨rfl, rfl, ?_, ?_, rfl, rfl, rfl, rfl, rfl⟩
  · intro hf
    unfold logEntryTime
    rw [hf]
    rfl
  · intro ht
    unfold logEntryTime
    rw [ht]
    rfl

/-- Witness for C8 (amended): an entry with no `_time` key gets the
current clock value as its timestamp. -/
theorem claim8_witness : logEntryTime sampleEnv (.obj []) = .num 0 :=
  (claim8_field_fallbacks sampleEnv (.obj []) (.obj [])).2.2.1 rfl

/-- A metrics envelope holding two series under `data.result`. -/
def twoSeriesResp : JValue :=
  .obj [("data", .obj [("result", .arr
    [ .obj [("metric", .obj [("__name__", .str "m1")]),
            ("values", .arr [.arr [.num 1, .num 2]])],
      .obj [("metric", .obj [("__name__", .str "m2")]),
            ("values", .arr [.arr [.num 3, .num 4]])] ])])]

/-- The same envelope with only the first series. -/
def oneSeriesResp : JValue :=
  .obj [("data", .obj [("result", .arr
    [ .obj [("metric", .obj [("__name__", .str "m1")]),
            ("values", .arr [.arr [.num 1, .num 2]])] ])])]

/-- C9: when the located metrics result array is non-empty,
`parseMetricsResponse` is determined entirely by the first series — two
envelopes whose located arrays share the same head translate identically,
so every series after the first is discarded and appears nowhere in the
frame; and for a `values`-shaped head the frame is built from its metric
labels and timestamp/value pairs with each timestamp scaled by 1000. -/
theorem claim9_metrics_first_series_only
    (env : JsEnv) (refId : String) (r1 r2 s : JValue) (t1 t2 : List JValue)
    (h1 : metricsLocate r1 = .arr (s :: t1))
    (h2 : metricsLocate r2 = .arr (s :: t2)) :
    parseMetricsResponse env r1 refId = parseMetricsResponse env r2 refId
    ∧ (∀ vs pairs, isNullish s = false →
        s.getProp "values" = .arr vs →
        vs.mapM destructPair = some pairs →
        parseMetricsResponse env r1 refId = some { refId := refId, fields :=
          [ { name := .str "Time", type := .time,
              values := pairs.map (fun p =>
                numOrNaN ((parseFloatOfString env p.1).map (fun q => q * 1000))) },
            { name := jsOr ((jsOr (s.getProp "metric") (.obj [])).getProp "__name__")
                        (jsOr (s.getProp "query") (.str "value")),
              type := .number,
              values := pairs.map (fun p => numOrNaN (parseFloatOfString env p.2)),
              labels := jsOr (s.getProp "metric") (.obj []) } ] }) := by
  constructor
  · unfold parseMetricsResponse
    rw [h1, h2]
    rfl
  · intro vs pairs hs hvs hpairs
    unfold parseMetricsResponse
    rw [h1]
    show (if isNullish s = true then none else metricsSeriesFrame env s refId) = _
    rw [hs]
    unfold metricsSeriesFrame
    rw [hvs]
    show (match vs.mapM destructPair with
          | none => none
          | some pairs => _) = _
    rw [hpairs]

/-- Witness for C9: a two-series envelope translates exactly like the
envelope with the second series deleted. -/
theorem claim9_witness :
    parseMetricsResponse sampleEnv twoSeriesResp "A"
      = parseMetricsResponse sampleEnv oneSeriesResp "A" :=
  (claim9_metrics_first_series_only sampleEnv "A" twoSeriesResp oneSeriesResp
    (.obj [("metric", .obj [("__name__", .str "m1")]),
           ("values", .arr [.arr [.num 1, .num 2]])])
    [.obj [("metric", .obj [("__name__", .str "m2")]),
           ("values", .arr [.arr [.num 3, .num 4]])]]
    [] rfl rfl).1

/-- A logs envelope with one entry lacking a `_time` field. -/
def noTimeLogsResp : JValue := .obj [("logs", .arr [.obj []])]

/-- A logs envelope with one entry carrying a truthy `_time` field. -/
def timedLogsResp : JValue := .obj [("logs", .arr [.obj [("_time", .str "2024-01-01")]])]

/-- C10, counterexample: `parseLogsResponse` is not a pure function of the
envelope and refId — for an entry lacking `_time` the timestamp column is
`Date.now()`, so two calls on the same envelope and refId at different
clock instants (identical host environments except for `now`) produce
different frames. -/
theorem claim10_counterexample :
    parseLogsResponse sampleEnv noTimeLogsResp "A"
      ≠ parseLogsResponse sampleEnvLater noTimeLogsResp "A" := by
  intro h
  have h0 : parseLogsResponse sampleEnv noTimeLogsResp "A"
      = some { refId := "A", fields :=
          [ { name := .str "timestamp", type := .time, values := [.num 0] },
            { name := .str "body", type := .string, values := [.str "STR"] },
            { name := .str "severity", type := .string, values := [.str "unknown"] } ] } := rfl
  have h1 : parseLogsResponse sampleEnvLater noTimeLogsResp "A"
      = some { refId := "A", fields :=
          [ { name := .str "timestamp", type := .time, values := [.num 1] },
            { name := .str "body", type := .string, values := [.str "STR"] },
            { name := .str "severity", type := .string, values := [.str "unknown"] } ] } := rfl
  rw [h0, h1] at h
  have h2 := congrArg Frame.fields (Option.some.inj h)
  have h3 := congrArg Field.values (List.cons.inj h2).1
  have h4 := JValue.num.inj (List.cons.inj h3).1
  exact absurd h4 (by norm_num)

/-- C10, amended: each translator is a pure function of the envelope, the
refId and the host environment; `parseLogsResponse` additionally depends
on the `Date.now()` clock instant exactly for entries without a truthy
`_time` — when every located entry has a truthy `_time`, two calls with
the same envelope and refId agree even across different clock instants,
and an entry without one gets the current clock value as its timestamp. -/
theorem claim10_logs_deterministic_given_time_fields
    (env env2 : JsEnv) (resp : JValue) (refId : String)
    (hdate : env.dateGetTime = env2.dateGetTime)
    (hstr : env.stringify = env2.stringify)
    (htos : env.toStr = env2.toStr)
    (htime : ∀ e ∈ logsLocate (unwrapResponse resp), jsTruthy (e.getProp "_time") = true) :
    parseLogsResponse env resp refId = parseLogsResponse env2 resp refId
    ∧ (∀ entry, jsTruthy (entry.getProp "_time") = false →
        logEntryTime env entry = .num env.now) := by
  constructor
  · unfold parseLogsResponse
    cases hn : isNullish (unwrapResponse resp) with
    | true => simp [hn]
    | false =>
      simp only [hn, Bool.false_eq_true, if_false]
      by_cases hl : (logsLocate (unwrapResponse resp)).length = 0
      · simp [hl]
      · simp only [if_neg hl]
        cases ha : (logsLocate (unwrapResponse resp)).any isNullish with
        | true => simp [ha]
        | false =>
          simp only [ha, Bool.false_eq_true, if_false]
          have htimes : (logsLocate (unwrapResponse resp)).map (logEntryTime env)
              = (logsLocate (unwrapResponse resp)).map (logEntryTime env2) := by
            refine List.map_congr_left ?_
            intro e he
            unfold logEntryTime
            rw [htime e he, hdate]
            rfl
          have hmsg : logEntryMessage env = logEntryMessage env2 := by
            funext e
            unfold logEntryMessage
            rw [hstr]
          have hcoll : collectEntryLabels env = collectEntryLabels env2 := by
            funext labels entry
            unfold collectEntryLabels
            rw [htos]
          rw [htimes, hmsg, hcoll]
  · intro entry hf
    unfold logEntryTime
    rw [hf]
    rfl

/-- Witness for C10 (amended): with a truthy `_time` on every entry, the
translation agrees across two environments that differ only in the clock. -/
theorem claim10_witness :
    parseLogsResponse sampleEnv timedLogsResp "A"
      = parseLogsResponse sampleEnvLater timedLogsResp "A" :=
  (claim10_logs_deterministic_given_time_fields sampleEnv sampleEnvLater timedLogsResp "A"
    rfl rfl rfl
    (fun e he => by rw [List.mem_singleton.mp he]; rfl)).1

end Mirador
